import Mathlib

/-!
Shallow embedding of the annotation data model of `src/data.js` (the koalanlp
Node.js wrapper): morphemes, words, sentences, phrase-structure trees, the
DAG-edge family, entities and coreference groups, together with the helper
functions `writeonlyonce`, the `ImmutableArray` mutator overrides, and the
`equals` methods.

Modelling conventions, fixed once for the whole file:

* JavaScript `undefined`/`null` are modelled by `Option.none`; a field that the
  source may leave undefined has an `Option` type.
* Object identity (needed by the back-references `Morpheme.word`,
  `Word.phrase`, …) is modelled by a numeric address: a back-reference stores
  the address of its target object.
* `console.assert(cond, msg)` follows the Node.js ≥ 10 / browser semantics the
  package runs under (`engines: node >= 8`, published against Node 10+): a
  failed assertion writes a message to the console and execution continues; it
  never throws.  Constructors and setters therefore return the would-be
  assertion-failure flag alongside their result instead of aborting.
* Exceptions that JavaScript actually throws (`TypeError` from dereferencing
  `undefined`, from spreading `undefined`, or the explicit `throw Error(...)`
  of `ImmutableArray`) are modelled with `Except String`.
-/

/-- A morpheme (`class Morpheme`, src/data.js).  Own enumerable fields of an
instance: `_surface`, `_tag`, `_originalTag`, `id`, `word`, `wordSense`
(`entities` and `_reference` are carried implicitly, see `morphDeepEq`).
`id` and `word` are set by the owning `Word`'s constructor; `word` stores the
address of the owning `Word` object. -/
structure Morpheme where
  surface : String
  tag : String
  originalTag : Option String := none
  id : Option Nat := none
  word : Option Nat := none
  wordSense : Option Nat := none
  deriving DecidableEq, Repr

/-- A word (`class Word extends ImmutableArray`).  The array elements are the
morphemes; `addr` models the object's identity, `id` its one-time position
index inside a `Sentence` (undefined until the sentence constructor runs),
`phrase` the one-time back-reference to the `SyntaxTree` node owning this word
(stored as that node's address). -/
structure Word where
  addr : Nat
  surface : Option String
  morphemes : List Morpheme
  id : Option Nat := none
  phrase : Option Nat := none
  deriving DecidableEq, Repr

/-- The body of `Word`'s constructor (src/data.js:1494-1507) after the
`console.assert` precondition check: `super(morphemes)` stores the morphemes,
then `for (const [i, morph] of this.entries()) { morph.word = this; morph.id = i; }`
sets every morpheme's one-time `word` back-reference to this word and its
one-time `id` to its 0-based position. -/
def Word.construct (addr : Nat) (surface : Option String) (morphemes : List Morpheme) : Word :=
  { addr := addr
    surface := surface
    morphemes := morphemes.enum.map (fun p => { p.2 with word := some addr, id := some p.1 }) }

/-- A named entity (`class Entity extends ImmutableArray`, src/data.js:158-330).
The array elements are the member morphemes; they are the results of JS `map`
calls that can produce `undefined` entries, hence `Option`.  `label` stores the
raw `_label` string, `fineLabel` the `_fineLabel` string. -/
structure Entity where
  surface : String
  label : String
  fineLabel : String
  originalLabel : Option String := none
  morphemes : List (Option Morpheme)
  deriving DecidableEq, Repr

/-- A sentence (`class Sentence extends ImmutableArray`): the array elements are
the words; the derived collections are set at most once (`syntaxTree` via
`writeonlyonce`, the lists via `replaceableifempty`).  `entities` is the list
installed by the reconstruction constructor
(`this.entities = JVM.toJsArray(reference.getEntities(), (x) => this._getEntity(x))`). -/
structure Sentence where
  words : List Word
  entities : List Entity := []
  deriving Repr

/-- The tail of `Sentence`'s constructor (src/data.js:1920-1922):
`for (const [i, word] of this.entries()) { word.id = i; }` assigns every word's
one-time `id` by its position in the sentence. -/
def Sentence.construct (words : List Word) : Sentence :=
  { words := words.enum.map (fun p => { p.2 with id := some p.1 }) }

/-! ### JS array search helpers

`_.findIndex` / `_.findLastIndex` (underscore) as used by the lexical-class
queries: the index of the first / last element satisfying the predicate, `-1`
when there is none. -/

/-- `_.findIndex(list, p)`: first index whose element satisfies `p`, else `-1`. -/
def findIndexJs (p : α → Bool) : List α → Int
  | [] => -1
  | a :: l => if p a then 0 else (if findIndexJs p l = -1 then -1 else findIndexJs p l + 1)

/-- `_.findLastIndex(list, p)`: last index whose element satisfies `p`, else `-1`. -/
def findLastIndexJs (p : α → Bool) : List α → Int
  | [] => -1
  | a :: l =>
    if findLastIndexJs p l = -1 then (if p a then 0 else -1) else findLastIndexJs p l + 1

/-! ### POS tag vocabulary

`src/data.js` imports the tag vocabulary from `./types` (`POS.withName`, the
category predicates and `startsWith`), which is part of this repository but not
under `src/`. -/

/-- Modelled from the spec: `types.js` (the POS tag vocabulary) is missing from
`src/`.  Per spec §4.2 the noun-category test accepts 체언 (common/proper/bound
nouns `NNG`/`NNP`/`NNB`, numerals `NR`, pronouns `NP`) and rejects the
unanalyzable categories `NA`/`NV`/`NF`. -/
def POS.isNounTag (tag : String) : Bool :=
  tag ∈ ["NNG", "NNP", "NNB", "NR", "NP"]

/-- Modelled from the spec: `types.js` is missing from `src/`.  Per spec §4.2
the predicate-category test accepts 용언 (verbs `VV`, adjectives `VA`, auxiliary
predicates `VX`, copulas `VCP`/`VCN`). -/
def POS.isPredicateTag (tag : String) : Bool :=
  tag ∈ ["VV", "VA", "VX", "VCP", "VCN"]

/-- `Morpheme.isNoun()` (src/data.js:1180-1182): delegates to the tag
vocabulary's noun-category rule on the resolved tag. -/
def Morpheme.isNoun (m : Morpheme) : Bool := POS.isNounTag m.tag

/-- `Morpheme.isPredicate()` (src/data.js:1188-1190): delegates to the tag
vocabulary's predicate-category rule on the resolved tag. -/
def Morpheme.isPredicate (m : Morpheme) : Bool := POS.isPredicateTag m.tag

/-- The case-sensitive string prefix test used by the tag vocabulary's
`startsWith` (JS `String.prototype.startsWith`), as a character-sequence
prefix check. -/
def strStartsWith (s pre : String) : Bool := pre.data.isPrefixOf s.data

/-- `Morpheme.hasTagOneOf(...tags)` (src/data.js:1254-1256):
`tags.some((t) => this.tag.startsWith(t))`, a case-sensitive prefix test of the
resolved tag name against each supplied prefix. -/
def Morpheme.hasTagOneOf (m : Morpheme) (tags : List String) : Bool :=
  tags.any (fun t => strStartsWith m.tag t)

/-- `Morpheme.tag.equals(POS.XSV)`: enum equality is name equality. -/
def Morpheme.tagEqualsXSV (m : Morpheme) : Bool := m.tag == "XSV"

/-! ### Lexical-class queries (src/data.js:2209-2221, 2261-2273, 2313-2325) -/

/-- Inclusion predicate of `Sentence.nouns`:
`m.isNoun() || m.hasTagOneOf('ETN', 'XSN')`. -/
def nounInclusion (m : Morpheme) : Bool := m.isNoun || m.hasTagOneOf ["ETN", "XSN"]

/-- Exclusion predicate of `Sentence.nouns`: `m.hasTagOneOf('XSV', 'XSA', 'XSM')`. -/
def nounExclusion (m : Morpheme) : Bool := m.hasTagOneOf ["XSV", "XSA", "XSM"]

/-- Inclusion predicate of `Sentence.verbs`:
`m.isPredicate() || m.tag.equals(POS.XSV)`. -/
def verbInclusion (m : Morpheme) : Bool := m.isPredicate || m.tagEqualsXSV

/-- Exclusion predicate of `Sentence.verbs`:
`m.hasTagOneOf('ETN', 'ETM', 'XSN', 'XSA', 'XSM')`. -/
def verbExclusion (m : Morpheme) : Bool := m.hasTagOneOf ["ETN", "ETM", "XSN", "XSA", "XSM"]

/-- Inclusion predicate of `Sentence.modifiers`:
`m.isPredicate() || m.hasTagOneOf("ETM", "XSA", "XSM")` (the source reuses the
predicate-category test here). -/
def modifierInclusion (m : Morpheme) : Bool := m.isPredicate || m.hasTagOneOf ["ETM", "XSA", "XSM"]

/-- Exclusion predicate of `Sentence.modifiers`: `m.hasTagOneOf("ETN", "XSN", "XSV")`. -/
def modifierExclusion (m : Morpheme) : Bool := m.hasTagOneOf ["ETN", "XSN", "XSV"]

/-- The shared loop body of the three lexical-class getters: a word is kept iff
the first morpheme index satisfying `inc` exists (`!== -1`) and is strictly
greater than the last morpheme index satisfying `exc`. -/
def lexicalQuery (inc exc : Morpheme → Bool) (s : Sentence) : List Word :=
  s.words.filter (fun w =>
    findIndexJs inc w.morphemes ≠ -1 ∧ findIndexJs inc w.morphemes > findLastIndexJs exc w.morphemes)

/-- `get nouns()` (src/data.js:2209-2221). -/
def Sentence.nouns (s : Sentence) : List Word := lexicalQuery nounInclusion nounExclusion s

/-- `get verbs()` (src/data.js:2261-2273). -/
def Sentence.verbs (s : Sentence) : List Word := lexicalQuery verbInclusion verbExclusion s

/-- `get modifiers()` (src/data.js:2313-2325). -/
def Sentence.modifiers (s : Sentence) : List Word :=
  lexicalQuery modifierInclusion modifierExclusion s

/-! ### Tree / SyntaxTree (src/data.js:378-512, 539-597)

A phrase-structure node: the `ImmutableArray` elements are the child nodes,
`_terminal` the optional terminal `Word`.  The class is named `Tree` in the
source; it lives in the `Koala` namespace here because Mathlib already has a
root-level `Tree`. -/

namespace Koala

/-- `class Tree extends ImmutableArray`: label, optional terminal word, ordered
child nodes. -/
inductive Tree where
  | node (label : String) (terminal : Option Word) (children : List Tree)

end Koala

/-- The order `getTerminals` sorts by: the JS comparator `(x, y) => x.id - y.id`
on the words' position indices (meaningful when both `id`s are numbers; an
unset `id` is read as 0 here, and the theorems only depend on defined `id`s). -/
def wordIdLe (a b : Word) : Prop := a.id.getD 0 ≤ b.id.getD 0

instance : DecidableRel wordIdLe := fun _ _ => Nat.decLe _ _

instance : IsTotal Word wordIdLe := ⟨fun _ _ => Nat.le_total _ _⟩

instance : IsTrans Word wordIdLe := ⟨fun _ _ _ => Nat.le_trans⟩

namespace Koala

/-- `Tree.getTerminals()` (src/data.js:447-454): depth-first gather —
`this.reduce((acc, child) => acc.concat(child.getTerminals()), [])`, then push
this node's own terminal if present, then sort the combined list with the
comparator `(x, y) => x.id - y.id`. -/
def Tree.getTerminals : Tree → List Word
  | .node _ terminal children =>
    List.insertionSort wordIdLe
      ((children.attach.map (fun c => Tree.getTerminals c.val)).flatten ++ terminal.toList)
decreasing_by
  have := List.sizeOf_lt_of_mem c.property
  simp only [Tree.node.sizeOf_spec]
  omega

/-- The terminal words of a node's subtree, gathered without sorting: the
concatenation of each child's subtree terminals followed by the node's own
terminal word when present.  This is the specification-side reading of
"the union of each child's terminals plus T's own terminal Word". -/
def Tree.gatherTerminals : Tree → List Word
  | .node _ terminal children =>
    (children.attach.map (fun c => Tree.gatherTerminals c.val)).flatten ++ terminal.toList
decreasing_by
  have := List.sizeOf_lt_of_mem c.property
  simp only [Tree.node.sizeOf_spec]
  omega

end Koala

/-! ### `writeonlyonce` (src/data.js:14-25)

The setter installed on each one-time-write field is
`(newValue) => { console.assert(!isDefined(value), msg); value = newValue; }`.
Under Node ≥ 10 `console.assert` only logs, so the assignment `value = newValue`
is executed unconditionally; the setter's result is the new stored value
together with the flag telling whether the assertion message was logged. -/

/-- The state of a field wrapped by `writeonlyonce`. -/
structure WriteOnceField (α : Type) where
  value : Option α := none
  deriving DecidableEq, Repr

/-- One invocation of the `writeonlyonce` setter: returns the field after the
assignment and `true` iff the `console.assert` condition `!isDefined(value)`
failed (i.e. the field had already been initialized, so an assertion-failure
message was logged). -/
def WriteOnceField.set (f : WriteOnceField α) (newValue : α) : WriteOnceField α × Bool :=
  ({ value := some newValue }, f.value.isSome)

/-- Assignment `word.phrase = p` through the `writeonlyonce('phrase')` setter
installed by `Word`'s constructor (`p` is the address of a `SyntaxTree` node). -/
def Word.setPhrase (w : Word) (p : Nat) : Word × Bool :=
  let r := WriteOnceField.set { value := w.phrase } p
  ({ w with phrase := r.1.value }, r.2)

/-! ### `ImmutableArray` mutator overrides (src/data.js:110-132)

`ImmutableArray` overrides exactly `copyWithin`, `pop`, `push`, `sort` and
`fill` with `throw Error("지원하지 않습니다.")`.  Every other mutating method of
`Array.prototype` — `shift`, `unshift`, `reverse` (and `splice`, not modelled
because of its argument list) — is inherited unchanged and mutates the array. -/

/-- Mutating methods of a JS `Array`, as invocable on an `ImmutableArray`
(`splice` omitted; it behaves like the other inherited ones). -/
inductive ArrayMutOp where
  | copyWithin | pop | push | sort | fill | shift | unshift | reverse
  deriving DecidableEq, Repr

/-- Whether `ImmutableArray` overrides the method (src/data.js:110-132). -/
def ImmutableArray.overridesOp : ArrayMutOp → Bool
  | .copyWithin | .pop | .push | .sort | .fill => true
  | .shift | .unshift | .reverse => false

/-- Invoking a mutating method on an `ImmutableArray` whose contents are `l`
(`x` is the argument for the insertion-style methods): the five overridden
methods throw `Error("지원하지 않습니다.")` leaving the contents unchanged, the
inherited ones run `Array.prototype`'s implementation and return the mutated
contents. -/
def ImmutableArray.applyMutOp (op : ArrayMutOp) (l : List α) (x : α) : Except String (List α) :=
  match op with
  | .copyWithin | .pop | .push | .sort | .fill => throw "지원하지 않습니다."
  | .shift => pure l.tail
  | .unshift => pure (x :: l)
  | .reverse => pure l.reverse

/-! ### Checked constructors (C4): `console.assert` preconditions

Each constructor first evaluates its `console.assert` precondition (Node ≥ 10:
log only), then runs the construction body.  The only step that actually throws
is spreading an `undefined` element list (`super(...items)` in
`ImmutableArray`'s constructor, reached via `super(morphemes)`).  Results pair
the constructed object with the assertion-failure flag. -/

/-- `Word`'s constructor (src/data.js:1494-1507) on possibly-missing arguments:
`console.assert(isDefined(surface) && isDefined(morphemes) && morphemes.length > 0, …)`
logs on violation; `super(morphemes)` throws a `TypeError` iff `morphemes`
itself is `undefined` (spreading `undefined`); otherwise the word is built. -/
def Word.constructChecked (addr : Nat) (surface : Option String)
    (morphemes : Option (List Morpheme)) : Except String (Word × Bool) :=
  let assertViolated :=
    !(surface.isSome && morphemes.isSome && decide ((morphemes.getD []).length > 0))
  match morphemes with
  | none => throw "TypeError: undefined is not iterable"
  | some ms => pure (Word.construct addr surface ms, assertViolated)

/-- `DAGEdge`'s constructor (src/data.js:617-624):
`console.assert(isDefined(dest), …)` logs on violation, then the three fields
are stored; nothing throws.  The result triple is (src, dest, label) as stored,
paired with the assertion-failure flag. -/
def DAGEdge.constructChecked (src : Option Word) (dest : Option Word) (label : Option String) :
    (Option Word × Option Word × Option String) × Bool :=
  ((src, dest, label), dest.isNone)

/-- `RoleEdge`'s constructor (src/data.js:884-898):
`console.assert(isDefined(predicate) && isDefined(label), …)` logs on
violation, then `super(predicate, argument, label)` stores the fields and the
back-reference pushes run (each guarded by `isDefined`); nothing throws. -/
def RoleEdge.constructChecked (predicate : Option Word) (argument : Option Word)
    (label : Option String) : (Option Word × Option Word × Option String) × Bool :=
  let base := DAGEdge.constructChecked predicate argument label
  (base.1, !(predicate.isSome && label.isSome))

/-- `Entity`'s constructor (src/data.js:203-217) on possibly-missing arguments:
`console.assert(isDefined(surface) && isDefined(label) && isDefined(fineLabel) && isDefined(morphemes), …)`
logs on violation; `super(morphemes)` throws a `TypeError` iff `morphemes`
itself is `undefined`; otherwise the entity is built (each member morpheme's
`entities` list gains this entity). -/
def Entity.constructChecked (surface label fineLabel : Option String)
    (morphemes : Option (List Morpheme)) :
    Except String ((Option String × Option String × Option String × List Morpheme) × Bool) :=
  let assertViolated :=
    !(surface.isSome && label.isSome && fineLabel.isSome && morphemes.isSome)
  match morphemes with
  | none => throw "TypeError: undefined is not iterable"
  | some ms => pure ((surface, label, fineLabel, ms), assertViolated)

/-! ### Structural equality (`equals`)

`ImmutableArray.equals` (src/data.js:105-107) is
`typeof(other) === typeof(this) && _.isEqual(this, other)`.  `typeof` yields
`"object"` for every object, so the guard only rejects non-object operands
(e.g. `undefined`) and does not distinguish concrete subtypes.  Underscore's
`_.isEqual` compares two array-tagged values by length and element-wise
recursion (the constructor check is skipped for arrays), and compares two
plain objects by constructor and own enumerable keys, detecting cycles with a
pair of traversal stacks: when a value is already on the comparison stack, the
recursion returns whether the other side is the corresponding stacked value. -/

/-- Underscore `deepEq` on two `Morpheme` objects, as reached from `equals` on
their owning `Word`s or `Entity`s.  The own enumerable keys compared are
`_surface`, `_tag`, `_originalTag`, `id`, `word`, `wordSense`, `entities` and
`_reference`.  The `word` back-reference is an object that is either
`undefined` (fresh morpheme) or exactly the owning `Word` already on the
comparison stack, where the cycle rule makes the comparison succeed; comparing
a defined back-reference against `undefined` is `false`.  Hence the field
contributes `m1.word.isSome == m2.word.isSome`.  The `entities` membership
lists resolve the same way through the cycle rule (their members are the
entities under comparison), and `_reference` is `undefined` throughout this
model; both contribute `true` here. -/
def morphDeepEq (m1 m2 : Morpheme) : Bool :=
  m1.surface == m2.surface && m1.tag == m2.tag && m1.originalTag == m2.originalTag
    && m1.id == m2.id && m1.word.isSome == m2.word.isSome && m1.wordSense == m2.wordSense

/-- Underscore `deepEq` on possibly-`undefined` morpheme slots:
`undefined === undefined` holds; `undefined` against an object fails the
null/undefined guard. -/
def morphDeepEqOpt : Option Morpheme → Option Morpheme → Bool
  | none, none => true
  | some a, some b => morphDeepEq a b
  | _, _ => false

/-- `_.isEqual` on the array part of two morpheme-holding `ImmutableArray`s:
length plus element-wise `deepEq` (underscore compares array-tagged values by
their indexed elements only). -/
def isEqualMorphArray (l1 l2 : List Morpheme) : Bool :=
  l1.length == l2.length && (List.zip l1 l2).all (fun p => morphDeepEq p.1 p.2)

/-- As `isEqualMorphArray`, for arrays whose slots may be `undefined`. -/
def isEqualMorphArrayOpt (l1 l2 : List (Option Morpheme)) : Bool :=
  l1.length == l2.length && (List.zip l1 l2).all (fun p => morphDeepEqOpt p.1 p.2)

/-- `Word.equals` (src/data.js:1744-1746):
`super.equals(other) && this.surface === other.surface`, where `super.equals`
is `ImmutableArray.equals`. -/
def Word.equalsJs (w1 w2 : Word) : Bool :=
  isEqualMorphArray w1.morphemes w2.morphemes && w1.surface == w2.surface

/-- `Word.equals` invoked on a possibly-`undefined` operand: for `undefined`
the `typeof` guard of `ImmutableArray.equals` fails (`"undefined" !== "object"`)
and the conjunction short-circuits to `false`. -/
def Word.equalsOpt (w1 : Word) : Option Word → Bool
  | none => false
  | some w2 => Word.equalsJs w1 w2

/-- `Entity.equals` (src/data.js:318-322):
`this._label === other._label && this.fineLabel === other.fineLabel && super.equals(other)`;
`super.equals` compares the member-morpheme arrays (`ImmutableArray.equals`).
Note that `_surface` is an own field of the object, not an array element, and
underscore ignores own non-index fields of array-tagged values — so the
surface participates nowhere. -/
def Entity.equals (e1 e2 : Entity) : Bool :=
  e1.label == e2.label && e1.fineLabel == e2.fineLabel
    && isEqualMorphArrayOpt e1.morphemes e2.morphemes

/-! ### The DAGEdge family (src/data.js:603-982) -/

/-- The concrete subtype of an edge object. -/
inductive EdgeKind where
  | dep | role
  deriving DecidableEq, Repr

/-- An edge object.  `label` is `_label` (the dependency tag for `DepEdge`, the
role label for `RoleEdge`); `typ` is `_type`, a field that only `DepEdge`
instances carry (reading it on a `RoleEdge` yields `undefined`). -/
structure DAGEdge where
  kind : EdgeKind
  src : Option Word := none
  dest : Option Word := none
  label : Option String := none
  typ : Option String := none
  deriving DecidableEq, Repr

/-- `DAGEdge.equals` (src/data.js:680-683):
`typeof(this) === typeof(other) && this._label === other._label && this.src.equals(other.src) && this.dest.equals(other.dest)`.
Both operands are objects, so the `typeof` guard always holds.  `&&`
short-circuits left to right, so `this.src` is only dereferenced after the
labels agree; dereferencing an absent `src` (or `dest`) throws a `TypeError`. -/
def DAGEdge.equals (e1 e2 : DAGEdge) : Except String Bool :=
  if e1.label != e2.label then pure false
  else match e1.src with
    | none => throw "TypeError: Cannot read properties of undefined"
    | some s1 =>
      if !(Word.equalsOpt s1 e2.src) then pure false
      else match e1.dest with
        | none => throw "TypeError: Cannot read properties of undefined"
        | some d1 => pure (Word.equalsOpt d1 e2.dest)

/-- `DepEdge.equals` (src/data.js:834-836):
`this._type === other._type && super.equals(other)` (short-circuiting). -/
def DepEdge.equals (e1 e2 : DAGEdge) : Except String Bool :=
  if e1.typ != e2.typ then pure false else DAGEdge.equals e1 e2

/-- Virtual dispatch of `.equals` on an edge: a `DepEdge` instance runs
`DepEdge.equals`, a `RoleEdge` instance runs the inherited `DAGEdge.equals`
(`RoleEdge` does not override `equals`). -/
def DAGEdge.dispatchEquals (e1 e2 : DAGEdge) : Except String Bool :=
  match e1.kind with
  | .dep => DepEdge.equals e1 e2
  | .role => DAGEdge.equals e1 e2

/-! ### Reconstruction from the foreign analyzer representation (C8)

The foreign (Java) objects expose getter methods; reading a JS field such as
`_label` on them yields `undefined`. -/

/-- A foreign morpheme reference: exposes `getWord().getId()` and `getId()`. -/
structure ForeignMorphRef where
  wordId : Nat
  morphId : Nat
  deriving DecidableEq, Repr

/-- A foreign entity: exposes `getSurface()`, `getLabel().name()`,
`getFineLabel()`, its member morpheme references, `getOriginalLabel()`. -/
structure ForeignEntity where
  surface : String
  labelName : String
  fineLabel : String
  morphRefs : List ForeignMorphRef
  originalLabel : Option String := none
  deriving DecidableEq, Repr

/-- A foreign coreference group: an ordered collection of foreign entities. -/
structure ForeignCorefGroup where
  members : List ForeignEntity
  deriving DecidableEq, Repr

/-- Reading the JS field `_label` on a foreign entity: the Java proxy exposes
getter methods, not the native class's private fields, so the access yields
`undefined`. -/
def ForeignEntity.fieldLabelJs (_ : ForeignEntity) : Option String := none

/-- `Sentence._getMorph` (src/data.js:1933-1939):
`this[jmorph.getWord().getId()][jmorph.getId()]`; an out-of-range index reads
as `undefined`. -/
def Sentence.getMorph (s : Sentence) (r : ForeignMorphRef) : Option Morpheme :=
  (s.words.get? r.wordId).bind (fun w => w.morphemes.get? r.morphId)

/-- `Sentence._getEntity` (src/data.js:1993-2004): builds a native `Entity`
from the foreign one, resolving each member morpheme reference positionally
via `_getMorph`. -/
def Sentence.getEntity (s : Sentence) (e : ForeignEntity) : Entity :=
  { surface := e.surface
    label := e.labelName
    fineLabel := e.fineLabel
    originalLabel := e.originalLabel
    morphemes := e.morphRefs.map (fun r => s.getMorph r) }

/-- `enty.equals(e)` where `enty` is a native `Entity` and `e` is the raw
foreign entity, exactly as called in `_getCorefGroup`:
`this._label === other._label && …` — the native `_label` is a defined string
while `_label` on the foreign proxy is `undefined`, so the first conjunct is
`false` and `&&` short-circuits the rest away. -/
def Entity.equalsForeign (enty : Entity) (e : ForeignEntity) : Bool :=
  some enty.label == e.fieldLabelJs

/-- The member-translation function of `Sentence._getCorefGroup`
(src/data.js:2006-2016):
`(e) => { let referenced = this._getEntity(e); return this.entities.find((enty) => enty.equals(e)); }`.
`referenced` is computed and never used; the lookup compares each native
entity against the raw foreign object `e`.  JS `Array.prototype.find` yields
`undefined` when nothing matches. -/
def Sentence.getCorefGroupMembers (s : Sentence) (c : ForeignCorefGroup) : List (Option Entity) :=
  c.members.map (fun e =>
    let _referenced := s.getEntity e
    s.entities.find? (fun enty => Entity.equalsForeign enty e))

/-- `CoreferenceGroup`'s constructor (src/data.js:359-365) applied to the
translated members: `for (const entity of this) { entity.corefGroup = this; }`
throws a `TypeError` as soon as a member is `undefined`. -/
def CoreferenceGroup.construct (members : List (Option Entity)) : Except String (List Entity) :=
  members.mapM (fun m => match m with
    | some e => pure e
    | none => throw "TypeError: Cannot set properties of undefined (setting corefGroup)")

/-- `Sentence._getCorefGroup` end to end: translate the members, then run the
`CoreferenceGroup` constructor on them. -/
def Sentence.getCorefGroup (s : Sentence) (c : ForeignCorefGroup) : Except String (List Entity) :=
  CoreferenceGroup.construct (s.getCorefGroupMembers c)

/-! ## Theorems -/

/-- Helper: `getTerminals` permutes the unsorted subtree gather. -/
theorem Koala.Tree.getTerminals_perm_gatherTerminals (t : Koala.Tree) :
    List.Perm t.getTerminals t.gatherTerminals := by
  induction t using Koala.Tree.getTerminals.induct with
  | _ label terminal children ih =>
    rw [Koala.Tree.getTerminals, Koala.Tree.gatherTerminals]
    refine (List.perm_insertionSort wordIdLe _).trans
      (List.Perm.append ?_ (List.Perm.refl _))
    apply List.Perm.flatten_congr
    rw [List.forall₂_map_right_iff, List.forall₂_map_left_iff, List.forall₂_same]
    exact fun c _ => ih c

/-- C2: for every `Tree` node, `getTerminals()` returns exactly the terminal
words of the node's subtree — the concatenation of each child's terminals plus
the node's own terminal word when present (`gatherTerminals`), as a
permutation — and the returned list is sorted ascending by word position index
(`wordIdLe`, the order of the JS comparator `(x, y) => x.id - y.id`), whatever
the order in which the children are stored. -/
theorem Koala.Tree.getTerminals_sorted_terminals (t : Koala.Tree) :
    List.Perm t.getTerminals t.gatherTerminals ∧ List.Sorted wordIdLe t.getTerminals := by
  refine ⟨Koala.Tree.getTerminals_perm_gatherTerminals t, ?_⟩
  cases t with
  | node label terminal children =>
    rw [Koala.Tree.getTerminals]
    exact List.sorted_insertionSort wordIdLe _

/-- C6: after `Word`'s constructor runs on morphemes `m₀..mₙ`, the `i`-th
stored morpheme has `id = i` and its `word` back-reference is the constructed
word (its address); and after `Sentence`'s constructor runs on words `w₀..wₙ`,
the `i`-th stored word has `id = i`. -/
theorem Word.construct_sets_ids_and_backrefs (addr : Nat) (surface : Option String)
    (ms : List Morpheme) (ws : List Word) (i j : Nat)
    (hm : j < (Word.construct addr surface ms).morphemes.length)
    (hw : i < (Sentence.construct ws).words.length) :
    ((Word.construct addr surface ms).morphemes.get ⟨j, hm⟩).id = some j ∧
      ((Word.construct addr surface ms).morphemes.get ⟨j, hm⟩).word = some addr ∧
      ((Sentence.construct ws).words.get ⟨i, hw⟩).id = some i := by
  refine ⟨?_, ?_, ?_⟩ <;>
    simp [Word.construct, Sentence.construct, List.getElem_map, List.getElem_enum]

/-- Witness for C6: a concrete word of two morphemes inside a concrete
two-word sentence. -/
theorem Word.construct_sets_ids_and_backrefs_witness :
    ((Word.construct 7 (some "나는") [{ surface := "나", tag := "NP" },
        { surface := "는", tag := "JX" }]).morphemes.get ⟨1, by decide⟩).id = some 1 ∧
      ((Word.construct 7 (some "나는") [{ surface := "나", tag := "NP" },
        { surface := "는", tag := "JX" }]).morphemes.get ⟨1, by decide⟩).word = some 7 ∧
      ((Sentence.construct [Word.construct 7 (some "나는") [{ surface := "나", tag := "NP" }],
        Word.construct 8 (some "먹었다") [{ surface := "먹", tag := "VV" }]]).words.get
          ⟨1, by decide⟩).id = some 1 :=
  Word.construct_sets_ids_and_backrefs 7 (some "나는")
    [{ surface := "나", tag := "NP" }, { surface := "는", tag := "JX" }]
    [Word.construct 7 (some "나는") [{ surface := "나", tag := "NP" }],
      Word.construct 8 (some "먹었다") [{ surface := "먹", tag := "VV" }]] 1 1
    (by decide) (by decide)

/-- C1: evaluation of the code at the claim's own scenario.  Constructing a
`Word` and assigning `phrase` twice with different values: the second
assignment does **not** fail — under Node ≥ 10 the `console.assert` inside the
`writeonlyonce` setter only logs (the returned flag is `true`), execution
continues, and the stored value is overwritten by the second value. -/
theorem Word.setPhrase_second_assignment_overwrites :
    ((((Word.construct 0 (some "나는") [{ surface := "나", tag := "NP" }]).setPhrase 1).1.setPhrase
        2).2 = true) ∧
      ((((Word.construct 0 (some "나는") [{ surface := "나", tag := "NP" }]).setPhrase
          1).1.setPhrase 2).1.phrase = some 2) ∧
      (((WriteOnceField.set (WriteOnceField.set ({} : WriteOnceField Nat) 1).1 2).1.value =
        some 2) ∧ (WriteOnceField.set (WriteOnceField.set ({} : WriteOnceField Nat) 1).1 2).2
          = true) := by
  decide

/-- C4: evaluation of the code at the claim's construction scenarios.
Constructing a `Word` with an empty morpheme list, a `DAGEdge` with an
undefined destination, an `Entity` with a missing surface, and a `RoleEdge`
without a label all *succeed*: the `console.assert` precondition only logs the
violation (flag `true`) and a constructed object is returned to the caller —
no failure propagates. -/
theorem constructors_log_only_on_precondition_violation :
    (Word.constructChecked 0 (some "나는") (some []) =
      Except.ok (Word.construct 0 (some "나는") [], true)) ∧
      (DAGEdge.constructChecked (some (Word.construct 0 (some "나는")
        [{ surface := "나", tag := "NP" }])) none (some "NP_SBJ") =
        ((some (Word.construct 0 (some "나는") [{ surface := "나", tag := "NP" }]), none,
          some "NP_SBJ"), true)) ∧
      (Entity.constructChecked none (some "PS") (some "PS_OTHER")
        (some [{ surface := "트럼프", tag := "NNP" }]) =
        Except.ok ((none, some "PS", some "PS_OTHER",
          [{ surface := "트럼프", tag := "NNP" }]), true)) ∧
      (RoleEdge.constructChecked (some (Word.construct 0 (some "먹었다")
          [{ surface := "먹", tag := "VV" }])) (some (Word.construct 1 (some "밥을")
          [{ surface := "밥", tag := "NNG" }])) none =
        ((some (Word.construct 0 (some "먹었다") [{ surface := "먹", tag := "VV" }]),
          some (Word.construct 1 (some "밥을") [{ surface := "밥", tag := "NNG" }]), none),
          true)) :=
  ⟨rfl, rfl, rfl, rfl⟩

/-- C5 counterexample: the claim "every operation that would mutate the
contents is rejected with an error, leaving the contents unchanged" is false —
`shift` is not overridden by `ImmutableArray`, so it runs `Array.prototype.shift`,
succeeds, and removes the first element. -/
theorem ImmutableArray.shift_not_rejected :
    ImmutableArray.applyMutOp ArrayMutOp.shift [1, 2] 0 = Except.ok [2] ∧ ([2] : List Nat) ≠ [1, 2] :=
  ⟨rfl, by decide⟩

/-- C5 amended: exactly the five overridden mutators `copyWithin`, `pop`,
`push`, `sort`, `fill` are rejected with `Error("지원하지 않습니다.")` leaving the
contents unchanged; the inherited mutators `shift`, `unshift`, `reverse` (and
`splice`) succeed and mutate the contents. -/
theorem ImmutableArray.overridden_mutators_rejected (l : List Nat) (x : Nat) :
    ImmutableArray.applyMutOp ArrayMutOp.copyWithin l x = Except.error "지원하지 않습니다." ∧
      ImmutableArray.applyMutOp ArrayMutOp.pop l x = Except.error "지원하지 않습니다." ∧
      ImmutableArray.applyMutOp ArrayMutOp.push l x = Except.error "지원하지 않습니다." ∧
      ImmutableArray.applyMutOp ArrayMutOp.sort l x = Except.error "지원하지 않습니다." ∧
      ImmutableArray.applyMutOp ArrayMutOp.fill l x = Except.error "지원하지 않습니다." ∧
      ImmutableArray.applyMutOp ArrayMutOp.shift l x = Except.ok l.tail ∧
      ImmutableArray.applyMutOp ArrayMutOp.unshift l x = Except.ok (x :: l) ∧
      ImmutableArray.applyMutOp ArrayMutOp.reverse l x = Except.ok l.reverse := by
  refine ⟨rfl, rfl, rfl, rfl, rfl, rfl, rfl, rfl⟩

/-- Helper: `morphDeepEq` is reflexive. -/
theorem morphDeepEq_refl (m : Morpheme) : morphDeepEq m m = true := by
  simp [morphDeepEq]

/-- Helper: `morphDeepEqOpt` is reflexive. -/
theorem morphDeepEqOpt_refl : ∀ o : Option Morpheme, morphDeepEqOpt o o = true
  | none => rfl
  | some m => morphDeepEq_refl m

/-- Helper: `isEqualMorphArrayOpt` is reflexive. -/
theorem isEqualMorphArrayOpt_refl (ms : List (Option Morpheme)) :
    isEqualMorphArrayOpt ms ms = true := by
  induction ms with
  | nil => rfl
  | cons a l ih =>
    simp only [isEqualMorphArrayOpt, List.zip_cons_cons, List.all_cons] at ih ⊢
    simp_all [morphDeepEqOpt_refl]

/-- C9: `Entity.equals` ignores the surface field — two entities agreeing on
the coarse label, the fine label and the morpheme sequence compare equal,
whatever their surfaces (and original labels). -/
theorem Entity.equals_ignores_surface (e1 e2 : Entity) (hl : e1.label = e2.label)
    (hf : e1.fineLabel = e2.fineLabel) (hm : e1.morphemes = e2.morphemes) :
    Entity.equals e1 e2 = true := by
  simp [Entity.equals, hl, hf, hm, isEqualMorphArrayOpt_refl]

/-- Witness for C9: two independently constructed entities with different
surfaces but the same label, fine label and morphemes compare equal. -/
theorem Entity.equals_ignores_surface_witness :
    Entity.equals
        { surface := "트럼프", label := "PS", fineLabel := "PS_OTHER",
          morphemes := [some { surface := "트럼프", tag := "NNP" }] }
        { surface := "미국 대통령", label := "PS", fineLabel := "PS_OTHER",
          morphemes := [some { surface := "트럼프", tag := "NNP" }] } = true ∧
      "트럼프" ≠ "미국 대통령" :=
  ⟨Entity.equals_ignores_surface
      { surface := "트럼프", label := "PS", fineLabel := "PS_OTHER",
        morphemes := [some { surface := "트럼프", tag := "NNP" }] }
      { surface := "미국 대통령", label := "PS", fineLabel := "PS_OTHER",
        morphemes := [some { surface := "트럼프", tag := "NNP" }] } rfl rfl rfl,
    by decide⟩

/-- C7 counterexample: comparing instances of different subtypes does *not*
always yield `false`.  A `RoleEdge` inherits `DAGEdge.equals`, whose
`typeof(this) === typeof(other)` guard is `"object" === "object"` and so never
distinguishes subtypes: a `RoleEdge` compared against a `DepEdge` carrying the
same label, source and destination yields `true`. -/
theorem DAGEdge.roleEdge_equals_depEdge :
    DAGEdge.dispatchEquals
        { kind := EdgeKind.role,
          src := some (Word.construct 0 (some "먹었다") [{ surface := "먹", tag := "VV" }]),
          dest := some (Word.construct 1 (some "밥을") [{ surface := "밥", tag := "NNG" }]),
          label := some "ARG1" }
        { kind := EdgeKind.dep,
          src := some (Word.construct 0 (some "먹었다") [{ surface := "먹", tag := "VV" }]),
          dest := some (Word.construct 1 (some "밥을") [{ surface := "밥", tag := "NNG" }]),
          label := some "ARG1", typ := some "NP" } = Except.ok true := by
  rfl

/-- C7 amended: edge equality never consults the other operand's concrete
subtype (the `typeof` guard cannot distinguish object subtypes).  A
`DepEdge`-dispatched comparison returns `false` whenever the `_type` fields
disagree (in particular against a `RoleEdge`, which lacks `_type`), and a
`RoleEdge`-dispatched comparison is exactly the inherited `DAGEdge.equals` on
label, source and destination, regardless of the operand's subtype. -/
theorem DAGEdge.equals_ignores_other_subtype (e1 e2 : DAGEdge) (k : EdgeKind) :
    DAGEdge.dispatchEquals e1 e2 = DAGEdge.dispatchEquals e1 { e2 with kind := k } ∧
      (e1.kind = EdgeKind.dep → e1.typ ≠ e2.typ →
        DAGEdge.dispatchEquals e1 e2 = Except.ok false) ∧
      (e1.kind = EdgeKind.role → DAGEdge.dispatchEquals e1 e2 = DAGEdge.equals e1 e2) := by
  refine ⟨?_, ?_, ?_⟩
  · cases h : e1.kind <;>
      simp [DAGEdge.dispatchEquals, DepEdge.equals, DAGEdge.equals, h]
  · intro h ht
    simp only [DAGEdge.dispatchEquals, DepEdge.equals, h, bne_iff_ne]
    rw [if_pos ht]
    rfl
  · intro h
    simp [DAGEdge.dispatchEquals, h]

/-- Witness for C7's amended theorem: a concrete `DepEdge` compared against a
concrete `RoleEdge` with the same label, source and destination yields
`false`, while the `RoleEdge`-dispatched comparison runs `DAGEdge.equals`. -/
theorem DAGEdge.equals_ignores_other_subtype_witness :
    DAGEdge.dispatchEquals
        { kind := EdgeKind.dep, src := some (Word.construct 0 (some "먹었다")
            [{ surface := "먹", tag := "VV" }]), dest := none, label := some "ARG1",
          typ := some "NP" }
        { kind := EdgeKind.role, src := none, dest := none, label := some "ARG1" } =
      Except.ok false ∧
      DAGEdge.dispatchEquals
          { kind := EdgeKind.role, src := none, dest := none, label := some "ARG1" }
          { kind := EdgeKind.dep, src := none, dest := none, label := some "ARG0" } =
        DAGEdge.equals
          { kind := EdgeKind.role, src := none, dest := none, label := some "ARG1" }
          { kind := EdgeKind.dep, src := none, dest := none, label := some "ARG0" } :=
  ⟨(DAGEdge.equals_ignores_other_subtype
      { kind := EdgeKind.dep, src := some (Word.construct 0 (some "먹었다")
          [{ surface := "먹", tag := "VV" }]), dest := none, label := some "ARG1",
        typ := some "NP" }
      { kind := EdgeKind.role, src := none, dest := none, label := some "ARG1" }
      EdgeKind.role).2.1 rfl (by decide),
    (DAGEdge.equals_ignores_other_subtype
      { kind := EdgeKind.role, src := none, dest := none, label := some "ARG1" }
      { kind := EdgeKind.dep, src := none, dest := none, label := some "ARG0" }
      EdgeKind.role).2.2 rfl⟩

/-- C10 counterexample: `equals` on an edge with an absent source does *not*
always raise — `&&` short-circuits on the label comparison before `this.src`
is dereferenced, so a root edge compared against an edge with a different
label returns the boolean `false`. -/
theorem DAGEdge.root_edge_equals_false_on_label_mismatch :
    DAGEdge.dispatchEquals
        { kind := EdgeKind.dep, src := none,
          dest := some (Word.construct 0 (some "쌌다") [{ surface := "쌌다", tag := "VV" }]),
          label := some "NP_SBJ", typ := some "NP" }
        { kind := EdgeKind.dep,
          src := some (Word.construct 0 (some "쌌다") [{ surface := "쌌다", tag := "VV" }]),
          dest := some (Word.construct 0 (some "쌌다") [{ surface := "쌌다", tag := "VV" }]),
          label := some "NP_OBJ", typ := some "NP" } = Except.ok false := by
  rfl

/-- C10 amended: `equals` on an edge whose source is absent raises a
`TypeError` exactly when the short-circuiting guards before the `this.src`
dereference pass, i.e. when the labels agree (and, for a `DepEdge` dispatch,
the `_type` fields agree); in particular comparing a root edge with itself
raises. -/
theorem DAGEdge.equals_throws_on_root_edge (e1 e2 : DAGEdge) (h1 : e1.src = none)
    (h2 : e1.label = e2.label) (h3 : e1.typ = e2.typ) :
    DAGEdge.dispatchEquals e1 e2 =
      Except.error "TypeError: Cannot read properties of undefined" := by
  cases hk : e1.kind <;>
    simp [DAGEdge.dispatchEquals, DepEdge.equals, DAGEdge.equals, h1, h2, h3] <;>
    cases e1.kind <;> rfl

/-- Witness for C10's amended theorem: a concrete root `DepEdge` compared with
itself raises the `TypeError`. -/
theorem DAGEdge.equals_throws_on_root_edge_witness :
    DAGEdge.dispatchEquals
        { kind := EdgeKind.dep, src := none,
          dest := some (Word.construct 0 (some "쌌다") [{ surface := "쌌다", tag := "VV" }]),
          label := some "NP_SBJ", typ := some "NP" }
        { kind := EdgeKind.dep, src := none,
          dest := some (Word.construct 0 (some "쌌다") [{ surface := "쌌다", tag := "VV" }]),
          label := some "NP_SBJ", typ := some "NP" } =
      Except.error "TypeError: Cannot read properties of undefined" :=
  DAGEdge.equals_throws_on_root_edge
    { kind := EdgeKind.dep, src := none,
      dest := some (Word.construct 0 (some "쌌다") [{ surface := "쌌다", tag := "VV" }]),
      label := some "NP_SBJ", typ := some "NP" }
    { kind := EdgeKind.dep, src := none,
      dest := some (Word.construct 0 (some "쌌다") [{ surface := "쌌다", tag := "VV" }]),
      label := some "NP_SBJ", typ := some "NP" } rfl rfl rfl

/-- C8: evaluation of the code at a concrete reconstruction input — a sentence
of one word 트럼프 = [트럼프/NNP], one foreign entity referencing morpheme
(word 0, morpheme 0), and one foreign coreference group containing that
entity.  The member lookup of `_getCorefGroup` compares native entities
against the raw foreign object `e` (the native translation bound to
`referenced` is computed and discarded), so `find` misses every member and the
`CoreferenceGroup` constructor then throws; yet the second conjunct shows the
already-constructed native entity *would* have been found had the lookup used
the native translation, as the claim describes. -/
theorem Sentence.getCorefGroup_misses_native_entities :
    (Sentence.getCorefGroup
        { words := (Sentence.construct [Word.construct 0 (some "트럼프")
            [{ surface := "트럼프", tag := "NNP" }]]).words,
          entities := [Sentence.getEntity
            (Sentence.construct [Word.construct 0 (some "트럼프")
              [{ surface := "트럼프", tag := "NNP" }]])
            { surface := "트럼프", labelName := "PS", fineLabel := "PS_OTHER",
              morphRefs := [{ wordId := 0, morphId := 0 }] }] }
        { members := [{ surface := "트럼프", labelName := "PS", fineLabel := "PS_OTHER",
                         morphRefs := [{ wordId := 0, morphId := 0 }] }] } =
      Except.error "TypeError: Cannot set properties of undefined (setting corefGroup)") ∧
      (List.find?
          (fun enty => Entity.equals enty (Sentence.getEntity
            (Sentence.construct [Word.construct 0 (some "트럼프")
              [{ surface := "트럼프", tag := "NNP" }]])
            { surface := "트럼프", labelName := "PS", fineLabel := "PS_OTHER",
              morphRefs := [{ wordId := 0, morphId := 0 }] }))
          [Sentence.getEntity
            (Sentence.construct [Word.construct 0 (some "트럼프")
              [{ surface := "트럼프", tag := "NNP" }]])
            { surface := "트럼프", labelName := "PS", fineLabel := "PS_OTHER",
              morphRefs := [{ wordId := 0, morphId := 0 }] }] =
        some (Sentence.getEntity
          (Sentence.construct [Word.construct 0 (some "트럼프")
            [{ surface := "트럼프", tag := "NNP" }]])
          { surface := "트럼프", labelName := "PS", fineLabel := "PS_OTHER",
            morphRefs := [{ wordId := 0, morphId := 0 }] })) := by
  exact ⟨rfl, rfl⟩

/-! ### First/last satisfying index, specification-side (for C3) -/

/-- Index j is inside l and its element satisfies p. -/

def SatAt (p : α → Bool) (l : List α) (j : Nat) : Prop :=
  ∃ h : j < l.length, p (l.get ⟨j, h⟩) = true

/-- i is the first index of l whose element satisfies p. -/
def FirstSatAt (p : α → Bool) (l : List α) (i : Nat) : Prop :=
  SatAt p l i ∧ ∀ j, j < i → ¬ SatAt p l j

/-- j is the last index of l whose element satisfies p. -/
def LastSatAt (p : α → Bool) (l : List α) (j : Nat) : Prop :=
  SatAt p l j ∧ ∀ k, SatAt p l k → k ≤ j

theorem satAt_nil (p : α → Bool) (j : Nat) : ¬ SatAt p [] j := by
  rintro ⟨h, -⟩
  simp at h

theorem satAt_cons_zero {p : α → Bool} {a : α} {l : List α} :
    SatAt p (a :: l) 0 ↔ p a = true := by
  constructor
  · rintro ⟨h, hp⟩
    exact hp
  · intro hp
    exact ⟨Nat.succ_pos _, hp⟩

theorem satAt_cons_succ {p : α → Bool} {a : α} {l : List α} {j : Nat} :
    SatAt p (a :: l) (j + 1) ↔ SatAt p l j := by
  constructor
  · rintro ⟨h, hp⟩
    exact ⟨Nat.lt_of_succ_lt_succ h, hp⟩
  · rintro ⟨h, hp⟩
    exact ⟨Nat.succ_lt_succ h, hp⟩

theorem findIndexJs_spec (p : α → Bool) : ∀ l : List α,
    (findIndexJs p l = -1 ∧ ∀ j, ¬ SatAt p l j) ∨
      (∃ i : Nat, findIndexJs p l = (i : Int) ∧ FirstSatAt p l i)
  | [] => Or.inl ⟨rfl, satAt_nil p⟩
  | a :: l => by
    by_cases hpa : p a
    · refine Or.inr ⟨0, by simp [findIndexJs, hpa], satAt_cons_zero.mpr hpa, ?_⟩
      intro j hj
      exact absurd hj (Nat.not_lt_zero j)
    · rcases findIndexJs_spec p l with ⟨hneg, hnone⟩ | ⟨i, hi, hfirst⟩
      · refine Or.inl ⟨by simp [findIndexJs, hpa, hneg], ?_⟩
        intro j
        cases j with
        | zero => rw [satAt_cons_zero]; simp [hpa]
        | succ j' => rw [satAt_cons_succ]; exact hnone j'
      · refine Or.inr ⟨i + 1, ?_, satAt_cons_succ.mpr hfirst.1, ?_⟩
        · rw [findIndexJs]
          rw [if_neg (by simp [hpa]), hi, if_neg (by omega)]
          push_cast
          ring
        · intro j hj
          cases j with
          | zero => rw [satAt_cons_zero]; simp [hpa]
          | succ j' =>
            rw [satAt_cons_succ]
            exact hfirst.2 j' (by omega)

theorem findLastIndexJs_spec (p : α → Bool) : ∀ l : List α,
    (findLastIndexJs p l = -1 ∧ ∀ j, ¬ SatAt p l j) ∨
      (∃ i : Nat, findLastIndexJs p l = (i : Int) ∧ LastSatAt p l i)
  | [] => Or.inl ⟨rfl, satAt_nil p⟩
  | a :: l => by
    rcases findLastIndexJs_spec p l with ⟨hneg, hnone⟩ | ⟨i, hi, hlast⟩
    · by_cases hpa : p a
      · refine Or.inr ⟨0, by simp [findLastIndexJs, hneg, hpa], satAt_cons_zero.mpr hpa, ?_⟩
        intro k hk
        cases k with
        | zero => exact Nat.le_refl 0
        | succ k' => exact absurd (satAt_cons_succ.mp hk) (hnone k')
      · refine Or.inl ⟨by simp [findLastIndexJs, hneg, hpa], ?_⟩
        intro j
        cases j with
        | zero => rw [satAt_cons_zero]; simp [hpa]
        | succ j' => rw [satAt_cons_succ]; exact hnone j'
    · refine Or.inr ⟨i + 1, ?_, satAt_cons_succ.mpr hlast.1, ?_⟩
      · rw [findLastIndexJs, if_neg (by rw [hi]; omega), hi]
        push_cast
        ring
      · intro k hk
        cases k with
        | zero => exact Nat.zero_le _
        | succ k' => exact Nat.succ_le_succ (hlast.2 k' (satAt_cons_succ.mp hk))

theorem firstSatAt_unique {p : α → Bool} {l : List α} {i i' : Nat}
    (h1 : FirstSatAt p l i) (h2 : FirstSatAt p l i') : i = i' := by
  rcases lt_trichotomy i i' with h | h | h
  · exact absurd h1.1 (h2.2 i h)
  · exact h
  · exact absurd h2.1 (h1.2 i' h)

theorem lexicalCondition_iff (inc exc : α → Bool) (ms : List α) :
    (findIndexJs inc ms ≠ -1 ∧ findIndexJs inc ms > findLastIndexJs exc ms) ↔
      (∃ i, FirstSatAt inc ms i ∧ ∀ j, SatAt exc ms j → j < i) := by
  constructor
  · rintro ⟨hne, hgt⟩
    rcases findIndexJs_spec inc ms with ⟨h1, -⟩ | ⟨i, hi, hfirst⟩
    · exact absurd h1 hne
    · refine ⟨i, hfirst, ?_⟩
      intro j hj
      rcases findLastIndexJs_spec exc ms with ⟨-, hnone⟩ | ⟨i0, hi0, hlast⟩
      · exact absurd hj (hnone j)
      · have hji : j ≤ i0 := hlast.2 j hj
        rw [hi, hi0] at hgt
        omega
  · rintro ⟨i, hfirst, hexc⟩
    have hfi : findIndexJs inc ms = (i : Int) := by
      rcases findIndexJs_spec inc ms with ⟨-, hnone⟩ | ⟨i', hi', hfirst'⟩
      · exact absurd hfirst.1 (hnone i)
      · rw [hi', firstSatAt_unique hfirst' hfirst]
    refine ⟨by rw [hfi]; omega, ?_⟩
    rw [hfi]
    rcases findLastIndexJs_spec exc ms with ⟨h2, -⟩ | ⟨i0, hi0, hlast⟩
    · rw [h2]; omega
    · rw [hi0]
      have := hexc i0 hlast.1
      omega

/-- Helper for C3: membership in a lexical-class query, characterized by the
first inclusion index dominating every exclusion index. -/
theorem mem_lexicalQuery_iff (inc exc : Morpheme → Bool) (s : Sentence) (w : Word) :
    w ∈ lexicalQuery inc exc s ↔ w ∈ s.words ∧
      ∃ i, FirstSatAt inc w.morphemes i ∧ ∀ j, SatAt exc w.morphemes j → j < i := by
  rw [lexicalQuery, List.mem_filter]
  apply and_congr_right
  intro _
  rw [decide_eq_true_eq]
  exact lexicalCondition_iff inc exc w.morphemes

/-- C3: a word belongs to `nouns` / `verbs` / `modifiers` iff the first
morpheme index satisfying the query's inclusion predicate exists and is
strictly greater than every (in particular the last) morpheme index satisfying
the exclusion predicate; and concretely, the one-word sentence whose word is
tagged `[NNG, XSV]` yields empty `nouns` but its full word list as `verbs`. -/
theorem Sentence.lexical_query_characterization (s : Sentence) (w : Word) :
    (w ∈ s.nouns ↔ w ∈ s.words ∧
        ∃ i, FirstSatAt nounInclusion w.morphemes i ∧
          ∀ j, SatAt nounExclusion w.morphemes j → j < i) ∧
      (w ∈ s.verbs ↔ w ∈ s.words ∧
        ∃ i, FirstSatAt verbInclusion w.morphemes i ∧
          ∀ j, SatAt verbExclusion w.morphemes j → j < i) ∧
      (w ∈ s.modifiers ↔ w ∈ s.words ∧
        ∃ i, FirstSatAt modifierInclusion w.morphemes i ∧
          ∀ j, SatAt modifierExclusion w.morphemes j → j < i) ∧
      ((Sentence.construct [Word.construct 0 (some "감싸고")
          [{ surface := "감싸", tag := "NNG" }, { surface := "고", tag := "XSV" }]]).nouns
        = []) ∧
      ((Sentence.construct [Word.construct 0 (some "감싸고")
          [{ surface := "감싸", tag := "NNG" }, { surface := "고", tag := "XSV" }]]).verbs
        = (Sentence.construct [Word.construct 0 (some "감싸고")
          [{ surface := "감싸", tag := "NNG" }, { surface := "고", tag := "XSV" }]]).words) := by
  refine ⟨mem_lexicalQuery_iff nounInclusion nounExclusion s w,
    mem_lexicalQuery_iff verbInclusion verbExclusion s w,
    mem_lexicalQuery_iff modifierInclusion modifierExclusion s w, by decide, by decide⟩
